import Mathlib

/-!
Verification development for the student-journey data-processing engine
(`processStudentData`, `calculateRiskScores`, `parseCSV`).

Conventions of the shallow embedding:
* JavaScript numbers are modelled by `ℚ`. The one place where a
  non-finite value can arise in the source — dividing by a zero
  `total_credits_required` in the credit-progress factor — is modelled
  by an explicit case split reproducing the observable behaviour of the
  comparison `credits_earned / total_credits_required < 0.25`
  (`+Inf < 0.25` and `NaN < 0.25` are false, `-Inf < 0.25` is true).
* A JavaScript `Map` (and a plain object used as a record) is modelled
  by an insertion-ordered association list: `set` overwrites the first
  binding of the key in place, otherwise appends.
* String trimming, splitting and quote-stripping use Lean's `String`
  library functions, which agree with their JavaScript counterparts on
  the inputs of interest; `parseFloat` is modelled by an executable
  longest-prefix decimal parser over `ℚ`, and the `Date` constructor by
  a year-month-day parser (claims never depend on its internals).
-/

namespace StudentJourney

/-- One row of input data: a student's enrollment in one course
(from the `StudentData` interface in `types/student.ts`). -/
structure StudentData where
  student_id : String
  program : String
  enrollment_date : String
  registration_date : String
  course_id : String
  course_name : String
  course_category : String
  course_start_date : String
  course_end_date : String
  grade : String
  completion_status : String
  attendance_rate : ℚ
  advisor_id : String
  advisor_meeting_count : ℚ
  support_ticket_count : ℚ
  gpa_at_time : ℚ
  credits_earned : ℚ
  total_credits_required : ℚ
deriving DecidableEq, Repr

/-- The `riskLevel` field of `FilterState`. -/
inductive RiskLevel where
  | all
  | high
  | medium
  | low
deriving DecidableEq, Repr

/-- The `dateRange` field of `FilterState`. -/
structure DateRange where
  start : String
  «end» : String
deriving DecidableEq, Repr

/-- The `FilterState` interface from `types/student.ts`. -/
structure FilterState where
  programs : List String
  advisors : List String
  dateRange : DateRange
  riskLevel : RiskLevel
deriving DecidableEq, Repr

/-! ### JavaScript `Map` as an insertion-ordered association list -/

/-- Model of `Map.prototype.set`: overwrite the first binding of `k` in place,
append a new binding when `k` is absent. -/
def jsMapSet {α β : Type} [DecidableEq α] (m : List (α × β)) (k : α) (v : β) :
    List (α × β) :=
  match m with
  | [] => [(k, v)]
  | p :: rest => if p.1 = k then (k, v) :: rest else p :: jsMapSet rest k v

/-- Model of `Map.prototype.get`: the value of the first binding of `k`, if any. -/
def jsMapGet {α β : Type} [DecidableEq α] (m : List (α × β)) (k : α) : Option β :=
  match m with
  | [] => none
  | p :: rest => if p.1 = k then some p.2 else jsMapGet rest k

/-- Building a map by `set`-ting a list of writes in order, starting from
`init`; `l.foldl (fun m x => jsMapSet m (key x) (value x)) init` factors
through this via `List.foldl_map`. -/
def jsMapBuild {α β : Type} [DecidableEq α] (ws : List (α × β))
    (init : List (α × β)) : List (α × β) :=
  ws.foldl (fun m p => jsMapSet m p.1 p.2) init

/-! ### Risk scorer (`calculateRiskScores`, lines 75–107) -/

/-- GPA factor: the first `if`/`else if` chain of `calculateRiskScores`. -/
def gpaFactor (gpa : ℚ) : ℚ :=
  if gpa < 2 then 3/10
  else if gpa < 5/2 then 2/10
  else if gpa < 3 then 1/10
  else 0

/-- Attendance factor of `calculateRiskScores`. -/
def attendanceFactor (att : ℚ) : ℚ :=
  if att < 6/10 then 25/100
  else if att < 75/100 then 15/100
  else if att < 85/100 then 5/100
  else 0

/-- Support-ticket factor of `calculateRiskScores`. -/
def ticketFactor (t : ℚ) : ℚ :=
  if t > 5 then 2/10
  else if t > 2 then 1/10
  else 0

/-- Advisor-meeting factor of `calculateRiskScores`. -/
def meetingFactor (m : ℚ) : ℚ :=
  if m = 0 then 15/100
  else if m < 2 then 1/10
  else 0

/-- Credit-progress factor. The source computes
`credits_earned / total_credits_required < 0.25` with JavaScript real
division: when `total_credits_required = 0` the quotient is `+Inf`
(earned positive), `NaN` (earned zero) — both comparing false — or
`-Inf` (earned negative), comparing true. The `total = 0` branch spells
out exactly those outcomes; otherwise exact division on `ℚ` agrees with
the source. -/
def creditFactor (earned total : ℚ) : ℚ :=
  if total = 0 then (if earned < 0 then 1/10 else 0)
  else if earned / total < 25/100 then 1/10
  else 0

/-- The per-row score body of `calculateRiskScores`: the running sum of
the five factors, capped at `1.0`. -/
def calculateRiskScore (s : StudentData) : ℚ :=
  min (gpaFactor s.gpa_at_time + attendanceFactor s.attendance_rate
      + ticketFactor s.support_ticket_count
      + meetingFactor s.advisor_meeting_count
      + creditFactor s.credits_earned s.total_credits_required) 1

/-- The function `calculateRiskScores` (lines 75–107): iterate over the rows,
`set`-ting each row's score into the map keyed by `student_id`. -/
def calculateRiskScores (data : List StudentData) : List (String × ℚ) :=
  data.foldl (fun m s => jsMapSet m s.student_id (calculateRiskScore s)) []

/-! ### Filter engine (`processStudentData`, lines 4–42) -/

/-- Model of `new Date(s).valueOf()` restricted to year-month-day
strings, mapped monotonically into `ℤ`; anything else is an invalid
date (`none`, i.e. `NaN`). The claims never depend on the internals of
date parsing, only on the guard `start && end` being inactive for empty
strings. -/
def parseDate (s : String) : Option ℤ :=
  match s.splitOn "-" with
  | [y, m, d] =>
    match y.toNat?, m.toNat?, d.toNat? with
    | some a, some b, some c => some (((a * 10000 + b * 100 + c : ℕ) : ℤ))
    | _, _, _ => none
  | _ => none

/-- The date-range predicate of lines 20–25: both comparisons against a
`NaN` date value are false, so any unparsable date excludes the row. -/
def dateInRange (dateStr startStr endStr : String) : Bool :=
  match parseDate dateStr, parseDate startStr, parseDate endStr with
  | some d, some a, some b => decide (a ≤ d) && decide (d ≤ b)
  | _, _, _ => false

/-- Lines 4–26 of `processStudentData`: the programs, advisors and
enrollment-date filters, applied in that order; empty `programs` or
`advisors` lists and an empty (falsy) date-range endpoint deactivate
the corresponding filter. -/
def applyBaseFilters (data : List StudentData) (filters : FilterState) :
    List StudentData :=
  let f1 := if 0 < filters.programs.length then
      data.filter (fun s => filters.programs.contains s.program)
    else data
  let f2 := if 0 < filters.advisors.length then
      f1.filter (fun s => filters.advisors.contains s.advisor_id)
    else f1
  if filters.dateRange.start ≠ "" ∧ filters.dateRange.«end» ≠ "" then
    f2.filter (fun s =>
      dateInRange s.enrollment_date filters.dateRange.start filters.dateRange.«end»)
  else f2

/-- The risk-band `switch` of lines 35–40. -/
def riskBandKeep (level : RiskLevel) (risk : ℚ) : Bool :=
  match level with
  | RiskLevel.high => decide (risk ≥ 7/10)
  | RiskLevel.medium => decide (risk ≥ 4/10) && decide (risk < 7/10)
  | RiskLevel.low => decide (risk < 4/10)
  | RiskLevel.all => true

/-- Lines 31–42: the risk-band filter, applied only when
`riskLevel !== 'all'`, using scores computed over the base-filtered
subset; an absent map entry reads as `0` (`riskScores.get(id) || 0`). -/
def finalStudents (data : List StudentData) (filters : FilterState) :
    List StudentData :=
  let filtered := applyBaseFilters data filters
  let riskScores := calculateRiskScores filtered
  if filters.riskLevel ≠ RiskLevel.all then
    filtered.filter (fun s =>
      riskBandKeep filters.riskLevel ((jsMapGet riskScores s.student_id).getD 0))
  else filtered

/-! ### Aggregator (`processStudentData`, lines 44–60) -/

/-- The summary block of `ProcessedData`. -/
structure SummaryStats where
  totalStudents : ℕ
  completionRate : ℚ
  dropoutRate : ℚ
  averageGPA : ℚ
  averageAttendance : ℚ
deriving DecidableEq, Repr

/-- Model of `new Set(l).size` for a list of strings: the number of distinct
elements, counted in insertion order. -/
def jsSetSize (l : List String) : ℕ := l.dedup.length

/-- Lines 44–60 of `processStudentData`: summary statistics over the
final filtered list. Counts are over distinct `student_id`s, rates are
guarded by `totalStudents > 0`, averages accumulate with `reduce` over
all rows and are guarded by a nonempty list. -/
def summarize (l : List StudentData) : SummaryStats :=
  let totalStudents := jsSetSize (l.map (fun s => s.student_id))
  let completedStudents := jsSetSize
    ((l.filter (fun s => s.completion_status = "Completed")).map (fun s => s.student_id))
  let droppedStudents := jsSetSize
    ((l.filter (fun s => s.completion_status = "Dropped")).map (fun s => s.student_id))
  let completionRate : ℚ :=
    if 0 < totalStudents then ((completedStudents : ℚ) / (totalStudents : ℚ)) * 100 else 0
  let dropoutRate : ℚ :=
    if 0 < totalStudents then ((droppedStudents : ℚ) / (totalStudents : ℚ)) * 100 else 0
  let totalGPA := l.foldl (fun sum s => sum + s.gpa_at_time) 0
  let averageGPA := if 0 < l.length then totalGPA / (l.length : ℚ) else 0
  let totalAttendance := l.foldl (fun sum s => sum + s.attendance_rate) 0
  let averageAttendance := if 0 < l.length then totalAttendance / (l.length : ℚ) else 0
  { totalStudents := totalStudents
    completionRate := completionRate
    dropoutRate := dropoutRate
    averageGPA := averageGPA
    averageAttendance := averageAttendance }

/-- The `ProcessedData` interface: the final filtered rows, their
summary, and the risk-score map. -/
structure ProcessedData where
  students : List StudentData
  summary : SummaryStats
  riskScores : List (String × ℚ)
deriving DecidableEq, Repr

/-- The function `processStudentData` (lines 3–73). Note that the returned
`riskScores` is the map computed over the base-filtered subset, before
the risk-band filter is applied. -/
def processStudentData (data : List StudentData) (filters : FilterState) :
    ProcessedData :=
  { students := finalStudents data filters
    summary := summarize (finalStudents data filters)
    riskScores := calculateRiskScores (applyBaseFilters data filters) }

/-! ### Record parser (`parseCSV`, lines 109–130) -/

/-- A value stored in a parsed row object: numeric fields hold numbers,
everything else holds strings. -/
inductive JsVal where
  | str : String → JsVal
  | num : ℚ → JsVal
deriving DecidableEq, Repr

/-- JavaScript truthiness of an object property that may be absent:
`undefined`, the empty string and `0` are falsy. -/
def jsTruthyVal : Option JsVal → Bool
  | none => false
  | some (JsVal.str s) => decide (s ≠ "")
  | some (JsVal.num q) => decide (q ≠ 0)

/-- Model of `v.trim().replace(/"/g, '')`. -/
def cleanCell (v : String) : String := (v.trim).replace "\"" ""

/-- The allowlist of numeric fields on line 121. -/
def numericFields : List String :=
  ["attendance_rate", "gpa_at_time", "advisor_meeting_count",
   "support_ticket_count", "credits_earned", "total_credits_required"]

/-- Digits to a natural number, most significant first. -/
def digitsToNat (cs : List Char) : ℕ :=
  cs.foldl (fun n c => 10 * n + (c.toNat - 48)) 0

/-- The exponent part of a `parseFloat` literal: optional sign then
digits; an exponent marker with no digits contributes nothing (prefix
semantics: `parseFloat("3e") = 3`). -/
def parseExponent (cs : List Char) : ℤ :=
  let esign : ℤ := match cs with
    | '-' :: _ => -1
    | _ => 1
  let cs1 := match cs with
    | '-' :: rest => rest
    | '+' :: rest => rest
    | _ => cs
  let ds := cs1.takeWhile Char.isDigit
  if ds.isEmpty then 0 else esign * (digitsToNat ds : ℤ)

/-- Model of JavaScript `parseFloat`: skip leading whitespace, read an
optional sign, a longest decimal-literal prefix with optional fraction
and exponent, and ignore any trailing garbage; `none` models `NaN`.
Exact rationals stand in for IEEE doubles, and the `Infinity` keyword
is out of scope (no caller feeds it). -/
def jsParseFloat (s : String) : Option ℚ :=
  let cs := s.data.dropWhile Char.isWhitespace
  let sign : ℚ := match cs with
    | '-' :: _ => -1
    | _ => 1
  let cs1 := match cs with
    | '-' :: rest => rest
    | '+' :: rest => rest
    | _ => cs
  let ds1 := cs1.takeWhile Char.isDigit
  let cs2 := cs1.dropWhile Char.isDigit
  let ds2 := match cs2 with
    | '.' :: rest => rest.takeWhile Char.isDigit
    | _ => []
  let cs3 := match cs2 with
    | '.' :: rest => rest.dropWhile Char.isDigit
    | _ => cs2
  if ds1.isEmpty ∧ ds2.isEmpty then none
  else
    let mant : ℚ := (digitsToNat ds1 : ℚ) + (digitsToNat ds2 : ℚ) / (10 : ℚ) ^ ds2.length
    let expo : ℤ := match cs3 with
      | 'e' :: rest => parseExponent rest
      | 'E' :: rest => parseExponent rest
      | _ => 0
    some (sign * mant * (10 : ℚ) ^ expo)

/-- The value stored for a header at column `i` (lines 117–126):
`values[index] || ''` defaults a missing trailing column to the empty
string, allowlisted headers get `parseFloat(value) || 0`, all others
keep the cleaned string. -/
def cellVal (values : List String) (header : String) (i : ℕ) : JsVal :=
  let value := values.getD i ""
  if numericFields.contains header then JsVal.num ((jsParseFloat value).getD 0)
  else JsVal.str value

/-- Lines 113–126: build one row object by writing each header's value
in header order (later duplicate headers overwrite earlier ones, as
object assignment does). -/
def parseRow (headers : List String) (line : String) : List (String × JsVal) :=
  let values := (line.splitOn ",").map cleanCell
  headers.enum.foldl (fun row p => jsMapSet row p.2 (cellVal values p.2 p.1)) []

/-- Line 111: the header list of the first line. -/
def csvHeaders (csvText : String) : List String :=
  (((csvText.trim.splitOn "\n").headD "").splitOn ",").map cleanCell

/-- The rows of lines 113–128, before the `student_id` filter. -/
def csvRawRows (csvText : String) : List (List (String × JsVal)) :=
  ((csvText.trim.splitOn "\n").drop 1).map (parseRow (csvHeaders csvText))

/-- The function `parseCSV` (lines 109–130): parse every data line and keep the rows
whose `student_id` property is truthy. -/
def parseCSV (csvText : String) : List (List (String × JsVal)) :=
  (csvRawRows csvText).filter (fun row => jsTruthyVal (jsMapGet row "student_id"))

/-! ### Spec-side formulations, for the refinement claims

Each definition below transcribes the words of a claim (not the source
code); theorems compare them with the source-derived definitions
above. -/

/-- The risk-score formula exactly as the claim words it: five factor
values with two-sided bucket conditions, summed and capped at `1.0`. -/
def claimRiskFormula (s : StudentData) : ℚ :=
  let g : ℚ :=
    if s.gpa_at_time < 2 then 30/100
    else if 2 ≤ s.gpa_at_time ∧ s.gpa_at_time < 5/2 then 20/100
    else if 5/2 ≤ s.gpa_at_time ∧ s.gpa_at_time < 3 then 10/100
    else 0
  let a : ℚ :=
    if s.attendance_rate < 60/100 then 25/100
    else if 60/100 ≤ s.attendance_rate ∧ s.attendance_rate < 75/100 then 15/100
    else if 75/100 ≤ s.attendance_rate ∧ s.attendance_rate < 85/100 then 5/100
    else 0
  let t : ℚ :=
    if 5 < s.support_ticket_count then 20/100
    else if 2 < s.support_ticket_count ∧ s.support_ticket_count ≤ 5 then 10/100
    else 0
  let m : ℚ :=
    if s.advisor_meeting_count = 0 then 15/100
    else if s.advisor_meeting_count = 1 then 10/100
    else 0
  let c : ℚ :=
    if s.credits_earned / s.total_credits_required < 25/100 then 10/100
    else 0
  min (g + a + t + m + c) 1

/-- The aggregation contract as the claim words it: distinct-student
counts via finite sets, guarded percentage rates, and row-weighted
arithmetic means. -/
def specSummary (l : List StudentData) : SummaryStats :=
  let total := ((l.map (fun s => s.student_id)).toFinset).card
  let completed :=
    (((l.filter (fun s => s.completion_status = "Completed")).map
      (fun s => s.student_id)).toFinset).card
  let dropped :=
    (((l.filter (fun s => s.completion_status = "Dropped")).map
      (fun s => s.student_id)).toFinset).card
  { totalStudents := total
    completionRate := if total = 0 then 0 else ((completed : ℚ) / (total : ℚ)) * 100
    dropoutRate := if total = 0 then 0 else ((dropped : ℚ) / (total : ℚ)) * 100
    averageGPA :=
      if l.length = 0 then 0 else (l.map (fun s => s.gpa_at_time)).sum / (l.length : ℚ)
    averageAttendance :=
      if l.length = 0 then 0 else (l.map (fun s => s.attendance_rate)).sum / (l.length : ℚ) }

/-- The index of the last occurrence of a header name in the header
list, if any: the column a parsed row actually reports for that field
(later duplicate headers overwrite earlier ones). -/
def lastIdxOf (headers : List String) (fieldName : String) : Option ℕ :=
  ((headers.enum.filter (fun p => p.2 = fieldName)).getLast?).map (fun p => p.1)

/-- The parsed value of one field of one data line, as the claim words
it: the cell under the field's column (empty string when the row is
short of that column), numeric for the six allowlisted fields with `0`
substituted on parse failure, a trimmed quote-stripped string
otherwise, and absent when the header does not occur. -/
def specFieldValue (headers : List String) (line : String) (fieldName : String) :
    Option JsVal :=
  match lastIdxOf headers fieldName with
  | none => none
  | some i =>
    let raw := ((line.splitOn ",").map (fun v => (v.trim).replace "\"" "")).getD i ""
    if fieldName ∈ numericFields then some (JsVal.num ((jsParseFloat raw).getD 0))
    else some (JsVal.str raw)

/-- The `student_id` string of a data line — empty when the column is
absent or the cell is empty. -/
def specStudentIdString (headers : List String) (line : String) : String :=
  match specFieldValue headers line "student_id" with
  | some (JsVal.str v) => v
  | _ => ""

/-- The parser contract as the claim words it: drop exactly the data
lines whose `student_id` is empty after parsing, and parse the
survivors. -/
def specParseCSV (csvText : String) : List (List (String × JsVal)) :=
  let headers := csvHeaders csvText
  (((csvText.trim.splitOn "\n").drop 1).filter
    (fun line => specStudentIdString headers line ≠ "")).map (parseRow headers)

/-! ### Concrete sample inputs used by witnesses and counterexamples -/

/-- Builds a sample `StudentData` row. -/
def mkStudent (sid status : String) (gpa att tick meet earned total : ℚ) :
    StudentData :=
  { student_id := sid
    program := "CompSci"
    enrollment_date := "2024-01-15"
    registration_date := "2024-01-20"
    course_id := "C1"
    course_name := "Intro"
    course_category := "Core"
    course_start_date := "2024-02-01"
    course_end_date := "2024-05-01"
    grade := "B"
    completion_status := status
    attendance_rate := att
    advisor_id := "A1"
    advisor_meeting_count := meet
    support_ticket_count := tick
    gpa_at_time := gpa
    credits_earned := earned
    total_credits_required := total }

/-- A thriving student: every factor in its best bucket, risk `0`. -/
def sampleLow : StudentData := mkStudent "S1" "Completed" (36/10) (95/100) 0 3 45 50

/-- A struggling student: every factor in its worst bucket, risk capped
at `1`. -/
def sampleHigh : StudentData := mkStudent "S2" "Dropped" (18/10) (5/10) 6 0 5 50

/-- A second row for the same student as `sampleLow`, with different
factor values (used to exercise last-row-wins in the risk map). -/
def sampleDupRow : StudentData := mkStudent "S1" "Dropped" (22/10) (7/10) 3 1 5 50

/-- A row with `total_credits_required = 0`. -/
def sampleZeroCredits : StudentData := mkStudent "S3" "In Progress" (28/10) (8/10) 1 2 10 0

/-- The wildcard filter of the identity law. -/
def wildcardFilter : FilterState :=
  { programs := [], advisors := [], dateRange := { start := "", «end» := "" },
    riskLevel := RiskLevel.all }

/-- A filter differing from the wildcard only in `riskLevel`. -/
def highRiskFilter : FilterState :=
  { programs := [], advisors := [], dateRange := { start := "", «end» := "" },
    riskLevel := RiskLevel.high }

/-! ### Lemmas about the JavaScript map model -/

theorem jsMapGet_jsMapSet {α β : Type} [DecidableEq α] (m : List (α × β))
    (a k : α) (v : β) :
    jsMapGet (jsMapSet m a v) k = if a = k then some v else jsMapGet m k := by
  induction m with
  | nil =>
    by_cases hak : a = k <;> simp [jsMapSet, jsMapGet, hak]
  | cons q rest ih =>
    by_cases hqa : q.1 = a
    · by_cases hak : a = k
      · simp [jsMapSet, hqa, jsMapGet, hak]
      · have hqk : ¬ q.1 = k := by rw [hqa]; exact hak
        simp [jsMapSet, hqa, jsMapGet, hak, hqk]
    · by_cases hqk : q.1 = k
      · have hak : ¬ a = k := fun h => hqa (by rw [hqk, h])
        have hka : ¬ k = a := fun h => hak h.symm
        simp [jsMapSet, hqa, jsMapGet, hqk, hak, hka]
      · simp [jsMapSet, hqa, jsMapGet, hqk, ih]

theorem jsMapBuild_cons {α β : Type} [DecidableEq α] (w : α × β)
    (ws : List (α × β)) (init : List (α × β)) :
    jsMapBuild (w :: ws) init = jsMapBuild ws (jsMapSet init w.1 w.2) := rfl

theorem jsMapGet_jsMapBuild {α β : Type} [DecidableEq α] (ws : List (α × β))
    (init : List (α × β)) (k : α) :
    jsMapGet (jsMapBuild ws init) k =
      match (ws.filter (fun p => p.1 = k)).getLast? with
      | some p => some p.2
      | none => jsMapGet init k := by
  induction ws generalizing init with
  | nil => simp [jsMapBuild]
  | cons w rest ih =>
    rw [jsMapBuild_cons, ih]
    rcases hfr : rest.filter (fun p => decide (p.1 = k)) with _ | ⟨x, xs⟩
    · by_cases hw : w.1 = k
      · simp [List.filter_cons, hw, hfr, jsMapGet_jsMapSet]
      · simp [List.filter_cons, hw, hfr, jsMapGet_jsMapSet]
    · rcases hxl : (x :: xs).getLast? with _ | p
      · exact absurd (List.getLast?_eq_none_iff.mp hxl) (List.cons_ne_nil x xs)
      · by_cases hw : w.1 = k
        · have hcond : (w :: rest).filter (fun p => decide (p.1 = k)) = w :: x :: xs := by
            simp [List.filter_cons, hw, hfr]
          rw [hfr, hxl, hcond, List.getLast?_cons_cons, hxl]
        · have hcond : (w :: rest).filter (fun p => decide (p.1 = k)) = x :: xs := by
            simp [List.filter_cons, hw, hfr]
          rw [hfr, hxl, hcond, hxl]

theorem keys_jsMapSet {α β : Type} [DecidableEq α] (m : List (α × β))
    (a : α) (v : β) :
    (jsMapSet m a v).map Prod.fst =
      if a ∈ m.map Prod.fst then m.map Prod.fst
      else m.map Prod.fst ++ [a] := by
  induction m with
  | nil => simp [jsMapSet]
  | cons q rest ih =>
    by_cases hqa : q.1 = a
    · simp [jsMapSet, hqa]
    · have haq : ¬ a = q.1 := fun h => hqa h.symm
      by_cases ha : a ∈ rest.map Prod.fst
      · simp [jsMapSet, hqa, ih, ha, haq]
      · simp [jsMapSet, hqa, ih, ha, haq]

theorem mem_keys_jsMapSet {α β : Type} [DecidableEq α] (m : List (α × β))
    (a b : α) (v : β) :
    b ∈ (jsMapSet m a v).map Prod.fst ↔ b = a ∨ b ∈ m.map Prod.fst := by
  rw [keys_jsMapSet]
  by_cases ha : a ∈ m.map Prod.fst
  · simp only [ha, if_true]
    constructor
    · exact fun h => Or.inr h
    · rintro (rfl | h)
      · exact ha
      · exact h
  · rw [if_neg ha]
    simp only [List.mem_append, List.mem_singleton]
    tauto

theorem nodup_keys_jsMapSet {α β : Type} [DecidableEq α] (m : List (α × β))
    (a : α) (v : β) (hn : (m.map Prod.fst).Nodup) :
    ((jsMapSet m a v).map Prod.fst).Nodup := by
  rw [keys_jsMapSet]
  by_cases ha : a ∈ m.map Prod.fst
  · simpa [ha] using hn
  · simp [ha, List.nodup_append, hn]

theorem mem_keys_jsMapBuild {α β : Type} [DecidableEq α] (ws : List (α × β))
    (init : List (α × β)) (k : α) :
    k ∈ (jsMapBuild ws init).map Prod.fst ↔
      k ∈ ws.map Prod.fst ∨ k ∈ init.map Prod.fst := by
  induction ws generalizing init with
  | nil => simp [jsMapBuild]
  | cons w rest ih =>
    rw [jsMapBuild_cons, ih, mem_keys_jsMapSet]
    simp only [List.map_cons, List.mem_cons]
    tauto

theorem nodup_keys_jsMapBuild {α β : Type} [DecidableEq α] (ws : List (α × β))
    (init : List (α × β)) (hn : (init.map Prod.fst).Nodup) :
    ((jsMapBuild ws init).map Prod.fst).Nodup := by
  induction ws generalizing init with
  | nil => exact hn
  | cons w rest ih =>
    rw [jsMapBuild_cons]
    exact ih _ (nodup_keys_jsMapSet _ _ _ hn)

theorem countP_key_eq_one {α β : Type} [DecidableEq α] (m : List (α × β))
    (k : α) (hn : (m.map Prod.fst).Nodup) (hk : k ∈ m.map Prod.fst) :
    m.countP (fun p => p.1 = k) = 1 := by
  induction m with
  | nil => simp at hk
  | cons q rest ih =>
    simp only [List.map_cons, List.nodup_cons] at hn
    rcases hn with ⟨hq, hrest⟩
    by_cases hqk : q.1 = k
    · have hzero : rest.countP (fun p => decide (p.1 = k)) = 0 := by
        rw [List.countP_eq_zero]
        intro p hp
        simp only [decide_eq_true_eq]
        intro hpk
        exact hq (by rw [← hqk] at hpk; exact hpk ▸ List.mem_map_of_mem Prod.fst hp)
      simp [List.countP_cons, hqk, hzero]
    · have hk' : k ∈ rest.map Prod.fst := by
        simp only [List.map_cons, List.mem_cons] at hk
        rcases hk with h | h
        · exact absurd h.symm hqk
        · exact h
      simp [List.countP_cons, hqk, ih hrest hk']

/-! ### Characterizing the risk-score map -/

theorem calculateRiskScores_eq_build (l : List StudentData) :
    calculateRiskScores l =
      jsMapBuild (l.map (fun s => (s.student_id, calculateRiskScore s))) [] := by
  simp [calculateRiskScores, jsMapBuild, List.foldl_map]

theorem jsMapGet_calculateRiskScores (l : List StudentData) (sid : String) :
    jsMapGet (calculateRiskScores l) sid =
      ((l.filter (fun s => s.student_id = sid)).getLast?).map calculateRiskScore := by
  rw [calculateRiskScores_eq_build, jsMapGet_jsMapBuild]
  have hfm : (l.map (fun s => (s.student_id, calculateRiskScore s))).filter
      (fun p => decide (p.1 = sid)) =
      (l.filter (fun s => decide (s.student_id = sid))).map
        (fun s => (s.student_id, calculateRiskScore s)) := by
    rw [List.filter_map]
    rfl
  rw [hfm, List.getLast?_map]
  rcases hx : (l.filter (fun s => decide (s.student_id = sid))).getLast? with _ | s <;>
    rw [hx] <;> rfl

theorem mem_keys_calculateRiskScores (l : List StudentData) (sid : String) :
    sid ∈ (calculateRiskScores l).map Prod.fst ↔
      sid ∈ l.map (fun s => s.student_id) := by
  rw [calculateRiskScores_eq_build, mem_keys_jsMapBuild]
  simp [List.mem_map]

theorem nodup_keys_calculateRiskScores (l : List StudentData) :
    ((calculateRiskScores l).map Prod.fst).Nodup := by
  rw [calculateRiskScores_eq_build]
  exact nodup_keys_jsMapBuild _ _ (by simp)

/-! ### Factor lemmas -/

theorem gpaFactor_nonneg (x : ℚ) : 0 ≤ gpaFactor x := by
  unfold gpaFactor; split_ifs <;> norm_num

theorem attendanceFactor_nonneg (x : ℚ) : 0 ≤ attendanceFactor x := by
  unfold attendanceFactor; split_ifs <;> norm_num

theorem ticketFactor_nonneg (x : ℚ) : 0 ≤ ticketFactor x := by
  unfold ticketFactor; split_ifs <;> norm_num

theorem meetingFactor_nonneg (x : ℚ) : 0 ≤ meetingFactor x := by
  unfold meetingFactor; split_ifs <;> norm_num

theorem creditFactor_nonneg (e t : ℚ) : 0 ≤ creditFactor e t := by
  unfold creditFactor; split_ifs <;> norm_num

theorem gpaFactor_antitone {x y : ℚ} (h : x ≤ y) : gpaFactor y ≤ gpaFactor x := by
  unfold gpaFactor; split_ifs <;> linarith

theorem attendanceFactor_antitone {x y : ℚ} (h : x ≤ y) :
    attendanceFactor y ≤ attendanceFactor x := by
  unfold attendanceFactor; split_ifs <;> linarith

theorem ticketFactor_monotone {x y : ℚ} (h : x ≤ y) :
    ticketFactor x ≤ ticketFactor y := by
  unfold ticketFactor; split_ifs <;> linarith

theorem meetingFactor_le (x : ℚ) : meetingFactor x ≤ 15/100 := by
  unfold meetingFactor; split_ifs <;> norm_num

theorem meetingFactor_antitone {x y : ℚ} (h0 : 0 ≤ x) (h : x ≤ y) :
    meetingFactor y ≤ meetingFactor x := by
  rcases eq_or_lt_of_le h0 with hx0 | hx0
  · rw [← hx0]
    have h15 : meetingFactor 0 = 15/100 := by norm_num [meetingFactor]
    rw [h15]
    exact meetingFactor_le y
  · have hxne : ¬ x = 0 := ne_of_gt hx0
    have hyne : ¬ y = 0 := ne_of_gt (lt_of_lt_of_le hx0 h)
    unfold meetingFactor
    rw [if_neg hxne, if_neg hyne]
    split_ifs <;> linarith

/-! ### Claim C2: the risk-score formula -/

/-- C2: for every `StudentRecord` (whose `advisor_meeting_count` is a
non-negative integer per the data model, and whose
`total_credits_required` is nonzero so the credit quotient is an
ordinary number), the risk score computed by `calculateRiskScores`
equals `min(g+a+t+m+c, 1.0)` with the bucketed factor values of the
claim, every boundary value falling in the lower (better) bucket. -/
theorem risk_score_formula_correct (s : StudentData)
    (hm : ∃ n : ℕ, s.advisor_meeting_count = (n : ℚ))
    (hc : s.total_credits_required ≠ 0) :
    calculateRiskScore s = claimRiskFormula s := by
  obtain ⟨n, hn⟩ := hm
  have hg : gpaFactor s.gpa_at_time =
      (if s.gpa_at_time < 2 then (30/100 : ℚ)
       else if 2 ≤ s.gpa_at_time ∧ s.gpa_at_time < 5/2 then 20/100
       else if 5/2 ≤ s.gpa_at_time ∧ s.gpa_at_time < 3 then 10/100
       else 0) := by
    unfold gpaFactor
    by_cases h1 : s.gpa_at_time < 2
    · rw [if_pos h1, if_pos h1]; norm_num
    · rw [if_neg h1, if_neg h1]
      by_cases h2 : s.gpa_at_time < 5/2
      · rw [if_pos h2,
          if_pos (show 2 ≤ s.gpa_at_time ∧ s.gpa_at_time < 5/2 from ⟨not_lt.mp h1, h2⟩)]
        norm_num
      · rw [if_neg h2,
          if_neg (show ¬ (2 ≤ s.gpa_at_time ∧ s.gpa_at_time < 5/2) from fun hh => h2 hh.2)]
        by_cases h3 : s.gpa_at_time < 3
        · rw [if_pos h3,
            if_pos (show 5/2 ≤ s.gpa_at_time ∧ s.gpa_at_time < 3 from ⟨not_lt.mp h2, h3⟩)]
          norm_num
        · rw [if_neg h3,
            if_neg (show ¬ (5/2 ≤ s.gpa_at_time ∧ s.gpa_at_time < 3) from fun hh => h3 hh.2)]
  have ha : attendanceFactor s.attendance_rate =
      (if s.attendance_rate < 60/100 then (25/100 : ℚ)
       else if 60/100 ≤ s.attendance_rate ∧ s.attendance_rate < 75/100 then 15/100
       else if 75/100 ≤ s.attendance_rate ∧ s.attendance_rate < 85/100 then 5/100
       else 0) := by
    unfold attendanceFactor
    by_cases h1 : s.attendance_rate < 6/10
    · rw [if_pos h1, if_pos (show s.attendance_rate < 60/100 by linarith)]
    · rw [if_neg h1,
        if_neg (show ¬ (s.attendance_rate < 60/100) from fun hh => h1 (by linarith))]
      by_cases h2 : s.attendance_rate < 75/100
      · rw [if_pos h2,
          if_pos (show 60/100 ≤ s.attendance_rate ∧ s.attendance_rate < 75/100 from
            ⟨by linarith [not_lt.mp h1], h2⟩)]
      · rw [if_neg h2,
          if_neg (show ¬ (60/100 ≤ s.attendance_rate ∧ s.attendance_rate < 75/100) from
            fun hh => h2 hh.2)]
        by_cases h3 : s.attendance_rate < 85/100
        · rw [if_pos h3,
            if_pos (show 75/100 ≤ s.attendance_rate ∧ s.attendance_rate < 85/100 from
              ⟨not_lt.mp h2, h3⟩)]
        · rw [if_neg h3,
            if_neg (show ¬ (75/100 ≤ s.attendance_rate ∧ s.attendance_rate < 85/100) from
              fun hh => h3 hh.2)]
  have ht : ticketFactor s.support_ticket_count =
      (if 5 < s.support_ticket_count then (20/100 : ℚ)
       else if 2 < s.support_ticket_count ∧ s.support_ticket_count ≤ 5 then 10/100
       else 0) := by
    unfold ticketFactor
    by_cases h1 : 5 < s.support_ticket_count
    · rw [if_pos h1, if_pos h1]; norm_num
    · rw [if_neg h1, if_neg h1]
      by_cases h2 : 2 < s.support_ticket_count
      · rw [if_pos h2,
          if_pos (show 2 < s.support_ticket_count ∧ s.support_ticket_count ≤ 5 from
            ⟨h2, not_lt.mp h1⟩)]
        norm_num
      · rw [if_neg h2,
          if_neg (show ¬ (2 < s.support_ticket_count ∧ s.support_ticket_count ≤ 5) from
            fun hh => h2 hh.1)]
  have hme : meetingFactor s.advisor_meeting_count =
      (if s.advisor_meeting_count = 0 then (15/100 : ℚ)
       else if s.advisor_meeting_count = 1 then 10/100
       else 0) := by
    by_cases e0 : s.advisor_meeting_count = 0
    · rw [meetingFactor, if_pos e0, if_pos e0]
    · by_cases e1 : s.advisor_meeting_count = 1
      · rw [meetingFactor, if_neg e0,
          if_pos (show s.advisor_meeting_count < 2 by rw [e1]; norm_num),
          if_neg e0, if_pos e1]
        norm_num
      · have hn0 : n ≠ 0 := by
          intro h; apply e0; rw [hn, h]; norm_num
        have hn1 : n ≠ 1 := by
          intro h; apply e1; rw [hn, h]; norm_num
        have hge2 : 2 ≤ n := by omega
        have hge : (2 : ℚ) ≤ s.advisor_meeting_count := by
          rw [hn]; exact_mod_cast hge2
        rw [meetingFactor, if_neg e0, if_neg (not_lt.mpr hge), if_neg e0, if_neg e1]
  have hcr : creditFactor s.credits_earned s.total_credits_required =
      (if s.credits_earned / s.total_credits_required < 25/100 then (10/100 : ℚ)
       else 0) := by
    rw [creditFactor, if_neg hc]
    split_ifs <;> norm_num
  simp only [calculateRiskScore, claimRiskFormula]
  rw [hg, ha, ht, hme, hcr]

/-- Witness for C2 at a concrete record. -/
theorem risk_score_formula_correct_witness :
    ((∃ n : ℕ, sampleLow.advisor_meeting_count = (n : ℚ)) ∧
      sampleLow.total_credits_required ≠ 0) ∧
    calculateRiskScore sampleLow = claimRiskFormula sampleLow :=
  ⟨⟨⟨3, by norm_num [sampleLow, mkStudent]⟩, by norm_num [sampleLow, mkStudent]⟩,
    risk_score_formula_correct sampleLow ⟨3, by norm_num [sampleLow, mkStudent]⟩
      (by norm_num [sampleLow, mkStudent])⟩

/-! ### Claim C6: risk monotonicity -/

/-- C6: worsening any of the four behavioural factors — lower GPA,
lower attendance, more support tickets, fewer advisor meetings (within
the data model's non-negative meeting counts) — while the credit fields
stay fixed never decreases the risk score. -/
theorem risk_monotonicity (s t : StudentData)
    (hg : t.gpa_at_time ≤ s.gpa_at_time)
    (ha : t.attendance_rate ≤ s.attendance_rate)
    (ht : s.support_ticket_count ≤ t.support_ticket_count)
    (hm : t.advisor_meeting_count ≤ s.advisor_meeting_count)
    (hm0 : 0 ≤ t.advisor_meeting_count)
    (hce : t.credits_earned = s.credits_earned)
    (hct : t.total_credits_required = s.total_credits_required) :
    calculateRiskScore s ≤ calculateRiskScore t := by
  unfold calculateRiskScore
  apply min_le_min _ le_rfl
  rw [hce, hct]
  exact add_le_add (add_le_add (add_le_add (add_le_add
    (gpaFactor_antitone hg) (attendanceFactor_antitone ha))
    (ticketFactor_monotone ht)) (meetingFactor_antitone hm0 hm)) le_rfl

/-- Witness for C6: `sampleHigh` is worse than `sampleDupRow` in every
behavioural factor and its score is indeed no smaller. -/
theorem risk_monotonicity_witness :
    (sampleHigh.gpa_at_time ≤ sampleDupRow.gpa_at_time ∧
      sampleHigh.attendance_rate ≤ sampleDupRow.attendance_rate ∧
      sampleDupRow.support_ticket_count ≤ sampleHigh.support_ticket_count ∧
      sampleHigh.advisor_meeting_count ≤ sampleDupRow.advisor_meeting_count ∧
      0 ≤ sampleHigh.advisor_meeting_count ∧
      sampleHigh.credits_earned = sampleDupRow.credits_earned ∧
      sampleHigh.total_credits_required = sampleDupRow.total_credits_required) ∧
    calculateRiskScore sampleDupRow ≤ calculateRiskScore sampleHigh := by
  have h1 : sampleHigh.gpa_at_time ≤ sampleDupRow.gpa_at_time := by
    norm_num [sampleHigh, sampleDupRow, mkStudent]
  have h2 : sampleHigh.attendance_rate ≤ sampleDupRow.attendance_rate := by
    norm_num [sampleHigh, sampleDupRow, mkStudent]
  have h3 : sampleDupRow.support_ticket_count ≤ sampleHigh.support_ticket_count := by
    norm_num [sampleHigh, sampleDupRow, mkStudent]
  have h4 : sampleHigh.advisor_meeting_count ≤ sampleDupRow.advisor_meeting_count := by
    norm_num [sampleHigh, sampleDupRow, mkStudent]
  have h5 : (0 : ℚ) ≤ sampleHigh.advisor_meeting_count := by
    norm_num [sampleHigh, mkStudent]
  have h6 : sampleHigh.credits_earned = sampleDupRow.credits_earned := rfl
  have h7 : sampleHigh.total_credits_required = sampleDupRow.total_credits_required := rfl
  exact ⟨⟨h1, h2, h3, h4, h5, h6, h7⟩,
    risk_monotonicity sampleDupRow sampleHigh h1 h2 h3 h4 h5 h6 h7⟩

/-! ### Claim C10: zero `total_credits_required` is harmless -/

/-- C10: with `total_credits_required = 0` (and the data model's
non-negative `credits_earned`), `calculateRiskScores` raises no error —
the embedding is a total function — the credit-progress comparison
fails, and the score is the capped sum of the other four factors. -/
theorem zero_total_credits_safe (s : StudentData)
    (h0 : s.total_credits_required = 0) (hnn : 0 ≤ s.credits_earned) :
    calculateRiskScore s =
      min (gpaFactor s.gpa_at_time + attendanceFactor s.attendance_rate
        + ticketFactor s.support_ticket_count
        + meetingFactor s.advisor_meeting_count) 1 := by
  have hcf : creditFactor s.credits_earned s.total_credits_required = 0 := by
    rw [creditFactor, if_pos h0, if_neg (not_lt.mpr hnn)]
  rw [calculateRiskScore, hcf, add_zero]

/-- Witness for C10 at a concrete record with zero required credits. -/
theorem zero_total_credits_safe_witness :
    (sampleZeroCredits.total_credits_required = 0 ∧
      0 ≤ sampleZeroCredits.credits_earned) ∧
    calculateRiskScore sampleZeroCredits =
      min (gpaFactor sampleZeroCredits.gpa_at_time
        + attendanceFactor sampleZeroCredits.attendance_rate
        + ticketFactor sampleZeroCredits.support_ticket_count
        + meetingFactor sampleZeroCredits.advisor_meeting_count) 1 := by
  have h1 : sampleZeroCredits.total_credits_required = 0 := rfl
  have h2 : (0 : ℚ) ≤ sampleZeroCredits.credits_earned := by
    norm_num [sampleZeroCredits, mkStudent]
  exact ⟨⟨h1, h2⟩, zero_total_credits_safe sampleZeroCredits h1 h2⟩

/-! ### Claim C3: wildcard filters are the identity -/

/-- C3: with the wildcard `FilterSpec` — empty `programs` and
`advisors`, empty date-range endpoints, `riskLevel = all` —
`processStudentData` returns the input record list unchanged, same
records in the same order. -/
theorem wildcard_identity (data : List StudentData) :
    (processStudentData data wildcardFilter).students = data := by
  show finalStudents data wildcardFilter = data
  simp [finalStudents, applyBaseFilters, wildcardFilter]

/-! ### Claim C4: empty filtered set gives an all-zero summary -/

/-- C4: when no rows survive filtering, every summary statistic is the
rational number `0` — the embedding has no `NaN`, and each ratio in
`summarize` is guarded by an explicit zero-denominator check. -/
theorem empty_summary_zero (data : List StudentData) (filters : FilterState)
    (h : (processStudentData data filters).students = []) :
    (processStudentData data filters).summary =
      { totalStudents := 0, completionRate := 0, dropoutRate := 0,
        averageGPA := 0, averageAttendance := 0 } := by
  have h' : finalStudents data filters = [] := h
  show summarize (finalStudents data filters) = _
  rw [h']
  rfl

/-- Witness for C4: the empty upload with the wildcard filter. -/
theorem empty_summary_zero_witness :
    (processStudentData [] wildcardFilter).students = [] ∧
    (processStudentData [] wildcardFilter).summary =
      { totalStudents := 0, completionRate := 0, dropoutRate := 0,
        averageGPA := 0, averageAttendance := 0 } :=
  ⟨rfl, empty_summary_zero [] wildcardFilter rfl⟩

/-! ### Claim C5: aggregation contract -/

theorem foldl_add_eq (f : StudentData → ℚ) :
    ∀ (l : List StudentData) (a : ℚ),
      l.foldl (fun acc s => acc + f s) a = a + (l.map f).sum := by
  intro l
  induction l with
  | nil => intro a; simp
  | cons x xs ih => intro a; simp [ih, add_assoc]

/-- C5: the summary's student counts are over the distinct
`student_id` set, the rates are `count/total*100` with a zero guard,
and the two averages are plain row-weighted arithmetic means. -/
theorem summary_matches_spec (l : List StudentData) :
    summarize l = specSummary l := by
  simp only [summarize, specSummary, jsSetSize, List.card_toFinset,
    SummaryStats.mk.injEq, foldl_add_eq, zero_add]
  refine ⟨by trivial, ?_, ?_, ?_, ?_⟩
  · rcases Nat.eq_zero_or_pos ((l.map (fun s => s.student_id)).dedup.length) with h | h
    · simp [h]
    · simp [h, Nat.pos_iff_ne_zero.mp h]
  · rcases Nat.eq_zero_or_pos ((l.map (fun s => s.student_id)).dedup.length) with h | h
    · simp [h]
    · simp [h, Nat.pos_iff_ne_zero.mp h]
  · rcases Nat.eq_zero_or_pos l.length with h | h
    · simp [h]
    · simp [h, Nat.pos_iff_ne_zero.mp h]
  · rcases Nat.eq_zero_or_pos l.length with h | h
    · simp [h]
    · simp [h, Nat.pos_iff_ne_zero.mp h]

/-! ### Claim C7: the dedup invariant -/

/-- C7: `totalStudents` never exceeds the row count and equals it
exactly when no `student_id` repeats. -/
theorem dedup_invariant (l : List StudentData) :
    (summarize l).totalStudents ≤ l.length ∧
      ((summarize l).totalStudents = l.length ↔
        (l.map (fun s => s.student_id)).Nodup) := by
  have hts : (summarize l).totalStudents =
      (l.map (fun s => s.student_id)).dedup.length := rfl
  have hlen : (l.map (fun s => s.student_id)).length = l.length :=
    List.length_map l _
  constructor
  · rw [hts, ← hlen]
    exact (List.dedup_sublist _).length_le
  · rw [hts, ← hlen]
    constructor
    · intro h
      exact List.dedup_eq_self.mp
        ((List.dedup_sublist _).eq_of_length_le (le_of_eq h.symm))
    · intro h
      rw [List.dedup_eq_self.mpr h]

/-! ### Claim C9: duplicate student ids, last row wins -/

/-- C9: when a `student_id` occurs in several rows, the risk map holds
exactly one binding for it, whose value is the score of the last such
row in iteration order. -/
theorem last_row_wins (l : List StudentData) (sid : String)
    (hdup : 1 < (l.filter (fun s => s.student_id = sid)).length) :
    (calculateRiskScores l).countP (fun p => p.1 = sid) = 1 ∧
      jsMapGet (calculateRiskScores l) sid =
        ((l.filter (fun s => s.student_id = sid)).getLast?).map calculateRiskScore := by
  constructor
  · apply countP_key_eq_one _ _ (nodup_keys_calculateRiskScores l)
    rw [mem_keys_calculateRiskScores]
    have hne : (l.filter (fun s => s.student_id = sid)) ≠ [] := by
      intro h
      rw [h] at hdup
      simp at hdup
    obtain ⟨s, hs⟩ := List.exists_mem_of_ne_nil _ hne
    have hsf := List.mem_filter.mp hs
    exact List.mem_map.mpr ⟨s, hsf.1, of_decide_eq_true hsf.2⟩
  · exact jsMapGet_calculateRiskScores l sid

/-- Witness for C9: two rows for student `S1`, map keeps one entry with
the later row's score. -/
theorem last_row_wins_witness :
    (1 < (([sampleLow, sampleDupRow]).filter
      (fun s => s.student_id = "S1")).length) ∧
    ((calculateRiskScores [sampleLow, sampleDupRow]).countP
        (fun p => p.1 = "S1") = 1 ∧
      jsMapGet (calculateRiskScores [sampleLow, sampleDupRow]) "S1" =
        ((([sampleLow, sampleDupRow]).filter
          (fun s => s.student_id = "S1")).getLast?).map calculateRiskScore) := by
  have hdup : 1 < (([sampleLow, sampleDupRow]).filter
      (fun s => s.student_id = "S1")).length := by
    simp [sampleLow, sampleDupRow, mkStudent]
  exact ⟨hdup, last_row_wins [sampleLow, sampleDupRow] "S1" hdup⟩

/-! ### Claim C1: which subset the returned risk map covers -/

/-- Refutation of C1 as stated: at a single low-risk row with
`riskLevel = high`, the returned `students` list is empty while the
returned `riskScores` map still binds that student, so the map's key
set is not the distinct ids of the returned subset. -/
theorem risk_map_over_final_subset_cex :
    ¬ (∀ sid : String,
        sid ∈ ((processStudentData [sampleLow] highRiskFilter).riskScores.map Prod.fst) ↔
        sid ∈ ((processStudentData [sampleLow] highRiskFilter).students.map
          (fun s => s.student_id))) := by
  intro h
  have hbase : applyBaseFilters [sampleLow] highRiskFilter = [sampleLow] := rfl
  have h1 : "S1" ∈
      ((processStudentData [sampleLow] highRiskFilter).riskScores.map Prod.fst) := by
    show "S1" ∈
      ((calculateRiskScores (applyBaseFilters [sampleLow] highRiskFilter)).map Prod.fst)
    rw [hbase, mem_keys_calculateRiskScores]
    simp [sampleLow, mkStudent]
  have hsc : calculateRiskScore sampleLow = 0 := by
    norm_num [calculateRiskScore, gpaFactor, attendanceFactor, ticketFactor,
      meetingFactor, creditFactor, sampleLow, mkStudent]
  have hmap : calculateRiskScores [sampleLow] = [("S1", calculateRiskScore sampleLow)] :=
    rfl
  have hstud : (processStudentData [sampleLow] highRiskFilter).students = [] := by
    show finalStudents [sampleLow] highRiskFilter = []
    rw [finalStudents, hbase, hmap, hsc]
    norm_num [highRiskFilter, riskBandKeep, jsMapGet, List.filter]
    rw [if_neg (show ¬ (RiskLevel.high = RiskLevel.all) by simp)]
    norm_num [show sampleLow.student_id = "S1" from rfl]
  have h2 := (h "S1").mp h1
  rw [hstud] at h2
  simp at h2

/-- C1 amended: the key set of the returned `riskScores` map is exactly
the distinct `student_id` set of the subset that survives the
programs/advisors/date filters — the subset over which the map was
computed, before the risk-band filter; a student removed by the
risk-band filter therefore keeps an entry. -/
theorem risk_map_keys_base_subset (data : List StudentData)
    (filters : FilterState) (sid : String) :
    sid ∈ ((processStudentData data filters).riskScores.map Prod.fst) ↔
      sid ∈ ((applyBaseFilters data filters).map (fun s => s.student_id)) :=
  mem_keys_calculateRiskScores _ _

/-! ### Claim C8: the parser contract -/

theorem mem_of_getLast?_some {α : Type} {l : List α} {a : α}
    (h : l.getLast? = some a) : a ∈ l := by
  obtain ⟨hne, hx⟩ := List.mem_getLast?_eq_getLast (Option.mem_def.mpr h)
  rw [hx]
  exact List.getLast_mem hne

theorem parseRow_eq_build (headers : List String) (line : String) :
    parseRow headers line =
      jsMapBuild (headers.enum.map (fun p =>
        (p.2, cellVal ((line.splitOn ",").map cleanCell) p.2 p.1))) [] := by
  simp [parseRow, jsMapBuild, List.foldl_map]

theorem jsMapGet_parseRow (headers : List String) (line fieldName : String) :
    jsMapGet (parseRow headers line) fieldName =
      specFieldValue headers line fieldName := by
  rw [parseRow_eq_build, jsMapGet_jsMapBuild]
  have hfm : ((headers.enum.map (fun p =>
      (p.2, cellVal ((line.splitOn ",").map cleanCell) p.2 p.1))).filter
        (fun q => decide (q.1 = fieldName))) =
      ((headers.enum.filter (fun p => decide (p.2 = fieldName))).map
        (fun p => (p.2, cellVal ((line.splitOn ",").map cleanCell) p.2 p.1))) := by
    rw [List.filter_map]
    rfl
  rw [hfm, List.getLast?_map]
  unfold specFieldValue lastIdxOf
  rcases hx : (headers.enum.filter (fun p => decide (p.2 = fieldName))).getLast?
    with _ | p
  · rw [hx]
    rfl
  · rw [hx]
    have hmem : p ∈ headers.enum.filter (fun p => decide (p.2 = fieldName)) :=
      mem_of_getLast?_some hx
    have hpf : p.2 = fieldName := of_decide_eq_true (List.mem_filter.mp hmem).2
    show some (cellVal ((line.splitOn ",").map cleanCell) p.2 p.1) = _
    rw [hpf]
    unfold cellVal cleanCell
    by_cases hnum : fieldName ∈ numericFields
    · simp [hnum]
    · simp [hnum]

theorem parseRow_kept_iff (headers : List String) (line : String) :
    jsTruthyVal (jsMapGet (parseRow headers line) "student_id") =
      decide (specStudentIdString headers line ≠ "") := by
  rw [jsMapGet_parseRow]
  unfold specStudentIdString
  rcases hv : specFieldValue headers line "student_id" with _ | v
  · simp [jsTruthyVal]
  · rcases v with s | q
    · simp [jsTruthyVal]
    · exfalso
      revert hv
      unfold specFieldValue
      rcases lastIdxOf headers "student_id" with _ | i
      · simp
      · simp [show ¬ ("student_id" ∈ numericFields) by decide]

/-- C8: `parseCSV` treats the first line as the header and, for every
input, equals the spec-side parser that drops exactly the data lines
with an empty `student_id`; and every field of every parsed row is
exactly the claim's description — numeric for the six allowlisted
fields with `0` on parse failure, a trimmed quote-stripped string
otherwise, the empty string for columns missing from a short row, and
absent for headers that do not occur. The embedding is a total
function, so no input raises an error. -/
theorem parseCSV_contract (csvText : String) (headers : List String)
    (line fieldName : String) :
    parseCSV csvText = specParseCSV csvText ∧
    jsMapGet (parseRow headers line) fieldName =
      specFieldValue headers line fieldName := by
  constructor
  · unfold parseCSV specParseCSV csvRawRows
    rw [List.filter_map]
    have hp : ((fun row => jsTruthyVal (jsMapGet row "student_id")) ∘
        parseRow (csvHeaders csvText)) =
        (fun line => decide (specStudentIdString (csvHeaders csvText) line ≠ "")) := by
      funext line
      exact parseRow_kept_iff (csvHeaders csvText) line
    rw [hp]
  · exact jsMapGet_parseRow headers line fieldName

end StudentJourney
